import Mathlib

/-!
Shallow embedding of `src/dbconnect/src/dbconnect.py` (class `DBConnect`):
the query-spec validation, column resolution, clause assembly, execution
gate and result formatting of the simple-psql repository.

Python values that the source only inspects through `isinstance` are
embedded as small shape types with an `other` constructor standing for any
value of a non-conforming type.  Machine-level effects (the psycopg2
cursor) are embedded as an explicit `Session` collaborator plus a trace of
`Event`s recording each statement handed to the cursor, in order.
-/

namespace DB

/-- Python scalar literals that occur as condition values and result cells. -/
inductive PyLit where
  | int (n : Int)
  | str (s : String)
  deriving DecidableEq, Repr

/-- Rendering of `psycopg2.sql.Literal`: integers in decimal, strings in
single quotes with embedded single quotes doubled. -/
def renderLit : PyLit → String
  | .int n => toString n
  | .str s => "'" ++ String.mk (s.data.foldr
      (fun c acc => if c = '\'' then '\'' :: '\'' :: acc else c :: acc) []) ++ "'"

/-- Rendering of `psycopg2.sql.Identifier`: double-quoted, embedded double
quotes doubled. -/
def quoteIdent (s : String) : String :=
  "\"" ++ String.mk (s.data.foldr
      (fun c acc => if c = '"' then '"' :: '"' :: acc else c :: acc) []) ++ "\""

/-- The whitespace characters recognised by Python's `str.strip()` /
`str.split()` (ASCII range, which is all the source ever meets). -/
def pyIsSpace (c : Char) : Bool :=
  c = ' ' || c = '\t' || c = '\n' || c = '\r' || c = '\x0b' || c = '\x0c'

/-- Worker for `str.split()` with no separator: accumulate the current
word (reversed) and cut at whitespace. -/
def splitWsAux : List Char → List Char → List String
  | [], [] => []
  | [], acc => [String.mk acc.reverse]
  | c :: cs, acc =>
    if pyIsSpace c then
      match acc with
      | [] => splitWsAux cs []
      | _ => String.mk acc.reverse :: splitWsAux cs []
    else splitWsAux cs (c :: acc)

/-- Python `s.split()` (split on runs of whitespace, no empty words). -/
def pySplit (s : String) : List String := splitWsAux s.data []

/-- Python `s.strip()`. -/
def pyStrip (s : String) : String :=
  String.mk (((s.data.dropWhile pyIsSpace).reverse.dropWhile pyIsSpace).reverse)

/-- Python `s.upper()` (ASCII). -/
def pyUpper (s : String) : String := String.mk (s.data.map Char.toUpper)

/-- Python `s.lower()` (ASCII). -/
def pyLower (s : String) : String := String.mk (s.data.map Char.toLower)

/-- The three admissible return types: `list`, `dict`, `pd.DataFrame`. -/
inductive RType where
  | list | dict | dataframe
  deriving DecidableEq, Repr

/-- The shaped results `format_result` can produce: the raw row list
(`list`), the ordinal-indexed mapping (`dict`), or a pandas frame with its
header row (`pd.DataFrame`). -/
inductive Output where
  | rows (rs : List (List PyLit))
  | mapping (m : List (Nat × List (String × PyLit)))
  | frame (headers : List String) (rs : List (List PyLit))
  deriving DecidableEq, Repr

/-- One constructor per distinct raise site of the source (plus the two
exceptions psycopg2/Python raise on its behalf). -/
inductive DBError where
  /-- Python `ValueError("Query cannot be empty")` -/
  | queryEmpty
  /-- Python `ValueError("Query must be a string")` -/
  | queryNotString
  /-- Python `ValueError("Only SELECT queries are allowed")` -/
  | onlySelect
  /-- Python `IndexError` from `"".split()[0]` -/
  | indexError
  /-- Python `TypeError("Columns must be a list (or None for all columns)")` -/
  | columnsNotList
  /-- Python `TypeError("Table name must be a string")` -/
  | tableNameNotString
  /-- Python `TypeError("Conditions must be a dictionary")` -/
  | conditionsNotDict
  /-- Python `TypeError("Aggregate must be a dictionary")` -/
  | aggregateNotDict
  /-- Python `TypeError("Conjunction must be a string")` -/
  | conjunctionNotString
  /-- Python `TypeError("order_by must be a dictionary/tuple/string or None")` -/
  | orderByBadType
  /-- Python `TypeError("Group must be a list")` -/
  | groupByNotList
  /-- Python `TypeError("Limit must be an integer")` -/
  | limitNotInt
  /-- Python `TypeError("Invalid return type")` / `ValueError("Invalid return type")` -/
  | invalidReturnType
  /-- Python `ValueError("Group by must be specified for aggregate functions")` -/
  | groupByRequired
  /-- Python `TypeError` from iterating / zipping `None` -/
  | noneNotIterable
  /-- psycopg2 `TypeError`: `sql.Identifier` applied to a non-string -/
  | identifierNotStr
  deriving DecidableEq, Repr

/-- A statement handed to the cursor: the `LIMIT 1` probe issued by
`_get_column_names`, or an ordinary `cursor.execute`. -/
inductive Event where
  | probe (stmt : String)
  | exec (stmt : String)
  deriving DecidableEq, Repr

/-- The mutable instance state of a `DBConnect` object (`self.return_type`,
`self.columns`, `self.aggregate`, `self.result`). -/
structure DBState where
  return_type : RType
  columns : Option (List String)
  aggregate : Option (List (String × String))
  result : Option Output
  deriving DecidableEq, Repr

/-- The external session collaborator: the column names the cursor
description reports for the probe, and the rows `fetchall` returns for an
executed statement. -/
structure Session where
  probeCols : List String
  run : String → List (List PyLit)

/-- Headers pandas invents when `columns=None` (a 0-based integer range),
rendered as decimal strings. -/
def rangeHeaders : List (List PyLit) → List String
  | [] => []
  | r :: _ => (List.range r.length).map (fun i => toString i)

/-- Header relabelling of the `pd.DataFrame` branch: a column that is a key
of the aggregate map becomes `"<lowercased function>: <column>"`. -/
def relabelHeader (agg : List (String × String)) (c : String) : String :=
  match List.lookup c agg with
  | some fn => pyLower fn ++ ": " ++ c
  | none => c

/-- Embedding of `DBConnect.format_result` (source lines 266-285): shapes the raw rows
per `self.return_type`, using `self.columns` and `self.aggregate`. -/
def format_result (st : DBState) (raw : List (List PyLit)) : Except DBError Output :=
  match st.return_type with
  | .list => .ok (.rows raw)
  | .dict =>
    match st.columns with
    | some cols => .ok (.mapping ((raw.map (fun row => cols.zip row)).enum)
      )
    | none => .error .noneNotIterable
  | .dataframe =>
    match st.aggregate with
    | some (p :: ps) =>
      match st.columns with
      | some cols => .ok (.frame (cols.map (relabelHeader (p :: ps))) raw)
      | none => .error .noneNotIterable
    | _ =>
      match st.columns with
      | some cols => .ok (.frame cols raw)
      | none => .ok (.frame (rangeHeaders raw) raw)

/-- The argument of `DBConnect.query`: a Python `str`, a
`psycopg2.sql.Composable` (identified with its rendered text), or a value
of any other type (which only its truthiness distinguishes). -/
inductive QueryArg where
  | pyStr (s : String)
  | composed (s : String)
  | other (truthy : Bool)
  deriving DecidableEq, Repr

/-- The `cursor.execute` / `fetchall` / `format_result` tail of
`DBConnect.query` (source lines 95-100): sets `self.result` to the fetched
rows, reformats, and returns the formatted result when fetching. -/
def execFetch (s : String) (fetch : Bool) (sess : Session) (st : DBState) :
    List Event × DBState × Except DBError (Option Output) :=
  if fetch then
    let raw := sess.run s
    let st1 := { st with result := some (.rows raw) }
    match format_result st1 raw with
    | .ok out => ([.exec s], { st1 with result := some out }, .ok (some out))
    | .error e => ([.exec s], st1, .error e)
  else ([.exec s], st, .ok none)

/-- Embedding of `DBConnect.query` (source lines 60-107): the execution gate.  Rejects
falsy input, rejects non-`str`, non-`Composable` input, and rejects a plain
string whose first whitespace-separated token is not `SELECT`
(case-insensitively); a `Composable` skips the keyword check entirely. -/
def query (q : QueryArg) (fetch : Bool) (sess : Session) (st : DBState) :
    List Event × DBState × Except DBError (Option Output) :=
  match q with
  | .pyStr s =>
    if s = "" then ([], st, .error .queryEmpty)
    else
      match pySplit (pyStrip s) with
      | [] => ([], st, .error .indexError)
      | t :: _ =>
        if pyUpper t = "SELECT" then execFetch s fetch sess st
        else ([], st, .error .onlySelect)
  | .composed s => execFetch s fetch sess st
  | .other truthy =>
    if truthy then ([], st, .error .queryNotString)
    else ([], st, .error .queryEmpty)

/-- Embedding of `DBConnect.__init__` (source lines 8-33): records the default return
type after checking it is one of `list`, `dict`, `pd.DataFrame`. -/
def init (rt : Option RType) : Except DBError DBState :=
  match rt with
  | some t => .ok { return_type := t, columns := none, aggregate := none, result := none }
  | none => .error .invalidReturnType

/-- Shape of the `columns` argument: `None`, a Python list of column
names, or a value of any other type. -/
inductive PyColumns where
  | none | list (cols : List String) | other
  deriving DecidableEq, Repr

/-- Shape of a Python argument checked with `isinstance(x, str)`
(`table_name`, `conjuction`). -/
inductive PyStrArg where
  | str (s : String) | other
  deriving DecidableEq, Repr

/-- Shape of the `conditions` argument: `None`, a dict
`{column: (value, operator)}` in insertion order, or another type. -/
inductive PyCond where
  | none | dict (cs : List (String × PyLit × String)) | other
  deriving DecidableEq, Repr

/-- Shape of the `aggregate` argument: `None`, a dict
`{column: function}` in insertion order, or another type. -/
inductive PyAgg where
  | none | dict (m : List (String × String)) | other
  deriving DecidableEq, Repr

/-- Shape of the `order_by` argument: `None`, a bare column name, a
`(column, direction)` pair, a dict `{column: direction}`, or another type. -/
inductive PyOrder where
  | none | str (c : String) | pair (c d : String) | dict (m : List (String × String)) | other
  deriving DecidableEq, Repr

/-- Shape of the `group_by` argument. -/
inductive PyGroup where
  | none | list (gs : List String) | other
  deriving DecidableEq, Repr

/-- Shape of the `limit` argument. -/
inductive PyLimit where
  | none | int (n : Int) | other
  deriving DecidableEq, Repr

/-- Shape of the per-call `return_type` argument: `None` (the default), one
of the three admissible type objects, or a (truthy) value of another type. -/
inductive PyRType where
  | none | rt (t : RType) | other
  deriving DecidableEq, Repr

/-- The well-typed `order_by` forms, after the shape check. -/
inductive OrderShape where
  | none | str (c : String) | pair (c d : String) | dict (m : List (String × String))
  deriving DecidableEq, Repr

/-- The raw arguments of `DBConnect.read` (source lines 109-119).
`schema` is never shape-checked by the source, so it is embedded as a
string directly. -/
structure ReadArgs where
  schema : String
  table_name : PyStrArg
  columns : PyColumns
  aggregate : PyAgg
  conditions : PyCond
  conjuction : PyStrArg
  order_by : PyOrder
  group_by : PyGroup
  limit : PyLimit
  return_type : PyRType
  deriving Repr

/-- The caller-supplied fields after the shape checks of lines 166-188.
`rawColumns` keeps the raw `columns` parameter because the aggregate
branch of the SELECT clause (line 203) iterates that parameter, not
`self.columns`. -/
structure Fields where
  schema : String
  table : String
  rawColumns : PyColumns
  aggregate : Option (List (String × String))
  conditions : Option (List (String × PyLit × String))
  conjuction : String
  order_by : OrderShape
  group_by : Option (List String)
  limit : Option Int
  deriving DecidableEq, Repr

/-- Python truthiness of the `columns` argument (`if not columns:`):
`None` and the empty list are falsy. -/
def columnsFalsy : PyColumns → Bool
  | .none => true
  | .list [] => true
  | _ => false

/-- Python truthiness of the `group_by` argument (`if not group_by:`). -/
def groupFalsy : PyGroup → Bool
  | .none => true
  | .list [] => true
  | _ => false

/-- Python truthiness of the (shape-checked) `order_by` value
(`if order_by:`): `None`, the empty string and the empty dict are falsy. -/
def orderTruthy : OrderShape → Bool
  | .none => false
  | .str c => decide (c ≠ "")
  | .pair _ _ => true
  | .dict m => !m.isEmpty

/-- Embedding of `DBConnect._get_column_names` (source lines 304-326): issues the
`SELECT * FROM <schema>.<table> LIMIT 1;` probe and reads the column names
off the cursor description, storing them in `self.columns`. -/
def get_column_names (schema table : String) (sess : Session) (st : DBState) :
    List Event × DBState × List String :=
  let stmt := "SELECT * FROM " ++ quoteIdent schema ++ "." ++ quoteIdent table ++ " LIMIT 1;"
  ([.probe stmt], { st with columns := some sess.probeCols }, sess.probeCols)

/-- Source lines 168-171: when `columns` is falsy, resolve `self.columns`
through the probe (building the probe statement fails with psycopg2's
`TypeError` when `table_name` is not a string); otherwise store the given
list in `self.columns`. -/
def probePhase (a : ReadArgs) (sess : Session) (st : DBState) :
    Except DBError (List Event × DBState) :=
  if columnsFalsy a.columns then
    match a.table_name with
    | .str t =>
      let r := get_column_names a.schema t sess st
      .ok (r.1, r.2.1)
    | .other => .error .identifierNotStr
  else
    match a.columns with
    | .list cs => .ok ([], { st with columns := some cs })
    | _ => .ok ([], st)

/-- The shape checks of source lines 172-188, in source order, producing
the typed fields.  The per-call `return_type` is checked here (line 187)
but — exactly as in the source — its value is not part of the fields the
rest of `read` consumes. -/
def fieldChecks (a : ReadArgs) : Except DBError Fields :=
  match a.table_name with
  | .other => .error .tableNameNotString
  | .str table =>
    match a.conditions with
    | .other => .error .conditionsNotDict
    | conds =>
      match a.aggregate with
      | .other => .error .aggregateNotDict
      | agg =>
        match a.conjuction with
        | .other => .error .conjunctionNotString
        | .str conj =>
          match a.order_by with
          | .other => .error .orderByBadType
          | ord =>
            match a.group_by with
            | .other => .error .groupByNotList
            | grp =>
              match a.limit with
              | .other => .error .limitNotInt
              | lim =>
                match a.return_type with
                | .other => .error .invalidReturnType
                | _ =>
                  .ok { schema := a.schema
                        table := table
                        rawColumns := a.columns
                        aggregate := match agg with
                          | .dict m => some m
                          | _ => Option.none
                        conditions := match conds with
                          | .dict cs => some cs
                          | _ => Option.none
                        conjuction := conj
                        order_by := match ord with
                          | .str c => .str c
                          | .pair c d => .pair c d
                          | .dict m => .dict m
                          | _ => .none
                        group_by := match grp with
                          | .list gs => some gs
                          | _ => Option.none
                        limit := match lim with
                          | .int n => some n
                          | _ => Option.none }

/-- Source lines 166-197: the `columns` shape check, the probe/assignment
of `self.columns`, the remaining shape checks, and the aggregate/group-by
constraint (which stores a truthy `aggregate` into `self.aggregate` before
checking `group_by`). -/
def readChecks (a : ReadArgs) (sess : Session) (st : DBState) :
    List Event × DBState × Except DBError Fields :=
  match a.columns with
  | .other => ([], st, .error .columnsNotList)
  | _ =>
    match probePhase a sess st with
    | .error e => ([], st, .error e)
    | .ok (evs, st1) =>
      match fieldChecks a with
      | .error e => (evs, st1, .error e)
      | .ok f =>
        match f.aggregate with
        | some (p :: ps) =>
          let st2 := { st1 with aggregate := some (p :: ps) }
          if groupFalsy a.group_by then (evs, st2, .error .groupByRequired)
          else (evs, st2, .ok f)
        | _ => (evs, st1, .ok f)

/-- The SELECT clause (source lines 199-213).  With a truthy aggregate the
source iterates the raw `columns` parameter (which is `None` when the
caller supplied no list — a Python `TypeError`); otherwise it iterates
`self.columns`. -/
def selectClause (f : Fields) (st : DBState) : Except DBError String :=
  match f.aggregate with
  | some (p :: ps) =>
    match f.rawColumns with
    | .list cs => .ok ("SELECT " ++ String.intercalate ", " (cs.map (fun c =>
        match List.lookup c (p :: ps) with
        | some fn => fn ++ "(" ++ quoteIdent c ++ ")"
        | none => quoteIdent c)))
    | _ => .error .noneNotIterable
  | _ =>
    match st.columns with
    | some cs => .ok ("SELECT " ++ String.intercalate ", " (cs.map quoteIdent))
    | none => .error .noneNotIterable

/-- The FROM clause (source lines 215-218). -/
def fromClause (schema table : String) : String :=
  " FROM " ++ quoteIdent schema ++ "." ++ quoteIdent table

/-- The WHERE clause (source lines 220-233): each condition renders as
`<column> <operator> <value>`, joined by the conjunction; omitted when the
condition dict is falsy. -/
def whereClause (conds : Option (List (String × PyLit × String))) (conj : String) : String :=
  match conds with
  | some (c :: cs) =>
    " WHERE " ++ String.intercalate (" " ++ conj ++ " ")
      ((c :: cs).map (fun x => quoteIdent x.1 ++ " " ++ x.2.2 ++ " " ++ renderLit x.2.1))
  | _ => ""

/-- The GROUP BY clause (source lines 235-238). -/
def groupClause : Option (List String) → String
  | some (g :: gs) => " GROUP BY " ++ String.intercalate ", " ((g :: gs).map quoteIdent)
  | _ => ""

/-- Normalisation of the order spec (source lines 241-247): a bare string
means ascending, a pair is a single entry, a dict is taken as is. -/
def orderNormalize : OrderShape → List (String × String)
  | .none => []
  | .str c => [(c, "ASC")]
  | .pair c d => [(c, d)]
  | .dict m => m

/-- The ORDER BY clause (source lines 240-257): only emitted when
`order_by` is truthy. -/
def orderClause (o : OrderShape) : String :=
  if orderTruthy o then
    " ORDER BY " ++ String.intercalate ", "
      ((orderNormalize o).map (fun x => quoteIdent x.1 ++ " " ++ x.2))
  else ""

/-- The LIMIT clause (source lines 259-260): emitted whenever `limit` is
truthy (any non-zero integer), rendered through `sql.Literal`. -/
def limitClause : Option Int → String
  | some n => if n = 0 then "" else " LIMIT " ++ renderLit (.int n)
  | none => ""

/-- The Clause Assembler (source lines 199-260): the statement text is the
concatenation SELECT, FROM, WHERE, GROUP BY, ORDER BY, LIMIT. -/
def assemble (f : Fields) (st : DBState) : Except DBError String :=
  match selectClause f st with
  | .error e => .error e
  | .ok sel => .ok (sel ++ fromClause f.schema f.table
      ++ whereClause f.conditions f.conjuction
      ++ groupClause f.group_by
      ++ orderClause f.order_by
      ++ limitClause f.limit)

/-- Embedding of `DBConnect.read` (source lines 109-264): checks and probe, clause
assembly, then `self.query(query)` on the composed statement and
`return self.result`. -/
def read (a : ReadArgs) (sess : Session) (st : DBState) :
    List Event × DBState × Except DBError (Option Output) :=
  match readChecks a sess st with
  | (evs, st1, .error e) => (evs, st1, .error e)
  | (evs, st1, .ok f) =>
    match assemble f st1 with
    | .error e => (evs, st1, .error e)
    | .ok qs =>
      match query (.composed qs) true sess st1 with
      | (ev2, st2, .error e) => (evs ++ ev2, st2, .error e)
      | (ev2, st2, .ok _) => (evs ++ ev2, st2, .ok st2.result)

/-- Python truthiness of the `aggregate` argument (`if aggregate:`):
only a non-empty dict is truthy. -/
def aggTruthy : PyAgg → Bool
  | .dict (_ :: _) => true
  | _ => false

/-- The errors raised by the local validation of `read` (type checks and
the aggregate/group-by cross-field rule), as opposed to errors arising
during assembly, execution or formatting. -/
def localValidation : DBError → Bool
  | .columnsNotList | .tableNameNotString | .conditionsNotDict | .aggregateNotDict
  | .conjunctionNotString | .orderByBadType | .groupByNotList | .limitNotInt
  | .invalidReturnType | .groupByRequired => true
  | _ => false

/-! ### Concrete fixtures used by the theorems -/

/-- A session whose probe reports one column and whose statements return no
rows. -/
def sessX : Session := { probeCols := ["a"], run := fun _ => [] }

/-- A session for the film_list scenarios. -/
def sessFilm : Session :=
  { probeCols := ["category", "price"], run := fun _ => [[.str "Action", .int 7]] }

/-- A session returning a single two-cell row. -/
def sessRow : Session := { probeCols := [], run := fun _ => [[.int 1, .int 2]] }

/-- An instance constructed with default return type `dict`. -/
def stDict : DBState :=
  { return_type := .dict, columns := none, aggregate := none, result := none }

/-- An instance constructed with default return type `list`. -/
def stList : DBState :=
  { return_type := .list, columns := none, aggregate := none, result := none }

/-- An instance constructed with default return type `pd.DataFrame`. -/
def stFrame : DBState :=
  { return_type := .dataframe, columns := none, aggregate := none, result := none }

/-- The spec's §8 read scenario on `public.film_list`. -/
def scenArgs : ReadArgs :=
  { schema := "public", table_name := .str "film_list",
    columns := .list ["category", "price"], aggregate := .dict [("price", "SUM")],
    conditions := .dict [("length", (.int 60, ">"))], conjuction := .str "AND",
    order_by := .pair "price" "DESC", group_by := .list ["category", "price"],
    limit := .int 10, return_type := .none }

/-- Inject a well-typed optional column list into the raw argument shape. -/
def mkCols : Option (List String) → PyColumns
  | Option.none => .none
  | some l => .list l

/-- Inject a well-typed optional condition dict into the raw shape. -/
def mkConds : Option (List (String × PyLit × String)) → PyCond
  | Option.none => .none
  | some cs => .dict cs

/-- Inject a well-typed optional group-by list into the raw shape. -/
def mkGroupArg : Option (List String) → PyGroup
  | Option.none => .none
  | some gs => .list gs

/-- Inject a well-typed optional limit into the raw shape. -/
def mkLimitArg : Option Int → PyLimit
  | Option.none => .none
  | some n => .int n

/-- Inject a well-typed optional return type into the raw shape. -/
def mkRT : Option RType → PyRType
  | Option.none => .none
  | some t => .rt t

/-- Inject a well-typed order spec into the raw shape. -/
def mkOrder : OrderShape → PyOrder
  | .none => .none
  | .str c => .str c
  | .pair c d => .pair c d
  | .dict m => .dict m

/-- A fully well-typed call of `read`, parameterised by the typed values. -/
def mkArgs (schema tbl conj : String) (cols : Option (List String))
    (agg : Option (List (String × String)))
    (conds : Option (List (String × PyLit × String))) (o : OrderShape)
    (g : Option (List String)) (lim : Option Int) (rt : Option RType) : ReadArgs :=
  { schema := schema, table_name := .str tbl, columns := mkCols cols,
    aggregate := match agg with | Option.none => .none | some m => .dict m,
    conditions := mkConds conds, conjuction := .str conj, order_by := mkOrder o,
    group_by := mkGroupArg g, limit := mkLimitArg lim, return_type := mkRT rt }

/-- First film_list read on a `pd.DataFrame` instance: with aggregate and
group-by. -/
def argsAggFilm : ReadArgs :=
  { schema := "public", table_name := .str "film_list",
    columns := .list ["category", "price"], aggregate := .dict [("price", "SUM")],
    conditions := .none, conjuction := .str "AND", order_by := .none,
    group_by := .list ["category"], limit := .none, return_type := .none }

/-- Second film_list read on the same instance: no aggregate at all. -/
def argsPlainFilm : ReadArgs :=
  { schema := "public", table_name := .str "film_list",
    columns := .list ["category", "price"], aggregate := .none,
    conditions := .none, conjuction := .str "AND", order_by := .none,
    group_by := .none, limit := .none, return_type := .none }

/-- The typed fields of the §8 scenario, as produced by the checks. -/
def scenFields : Fields :=
  { schema := "public", table := "film_list",
    rawColumns := .list ["category", "price"], aggregate := some [("price", "SUM")],
    conditions := some [("length", (.int 60, ">"))], conjuction := "AND",
    order_by := .pair "price" "DESC", group_by := some ["category", "price"],
    limit := some 10 }

/-- A read call whose `columns` argument has the wrong type. -/
def argsColsBad : ReadArgs :=
  { schema := "s", table_name := .str "t", columns := .other,
    aggregate := .none, conditions := .none, conjuction := .str "AND",
    order_by := .none, group_by := .none, limit := .none, return_type := .none }

deriving instance DecidableEq for Except

/-! ### Claim theorems -/

/-- C1: the per-call `return_type=list` override on an instance constructed
with default `dict` should shape the result as a row sequence; the code
validates and defaults the override but never consults it, so the result is
the ordinal-indexed mapping of the construction default. -/
theorem C1_return_type_override_ignored :
    init (some .dict) = .ok stDict
    ∧ (read { schema := "s", table_name := .str "t", columns := .list ["a", "b"],
              aggregate := .none, conditions := .none, conjuction := .str "AND",
              order_by := .none, group_by := .none, limit := .none,
              return_type := .rt .list } sessRow stDict).2.2
        = .ok (some (.mapping [(0, [("a", .int 1), ("b", .int 2)])])) :=
  ⟨rfl, rfl⟩

/-- C5 (failing input): with `aggregate={"price":"SUM"}`, `group_by` given
and no caller column list, the probe resolves the columns, yet the SELECT
builder iterates the raw `columns` parameter (`None`) and dies with a
`TypeError` instead of using the resolved list. -/
theorem C5_aggregate_with_probe_crashes :
    read { schema := "public", table_name := .str "film_list", columns := .none,
           aggregate := .dict [("price", "SUM")], conditions := .none,
           conjuction := .str "AND", order_by := .none,
           group_by := .list ["price"], limit := .none, return_type := .none }
        sessFilm stDict
      = ([.probe "SELECT * FROM \"public\".\"film_list\" LIMIT 1;"],
         { stDict with columns := some ["category", "price"],
                       aggregate := some [("price", "SUM")] },
         .error .noneNotIterable) := rfl

/-- C8: the empty statement fails with the empty-query error, the
`UPDATE` statement with the only-SELECT error, and the two are distinct
error kinds (distinct raise sites/messages in the source). -/
theorem C8_empty_vs_nonselect :
    query (.pyStr "") true sessX stDict = ([], stDict, .error .queryEmpty)
    ∧ query (.pyStr "UPDATE t SET x=1") true sessX stDict
        = ([], stDict, .error .onlySelect)
    ∧ DBError.queryEmpty ≠ DBError.onlySelect :=
  ⟨rfl, by decide, by decide⟩

/-- C2 counterexample: with no column list and an ill-typed `conditions`,
the column-resolution probe is sent through the session and only afterwards
does the `conditions` shape validation fail — so local validation does not
complete before the probe. -/
theorem C2_counterexample_probe_before_validation :
    read { schema := "public", table_name := .str "t", columns := .none,
           aggregate := .none, conditions := .other, conjuction := .str "AND",
           order_by := .none, group_by := .none, limit := .none,
           return_type := .none } sessX stDict
      = ([.probe "SELECT * FROM \"public\".\"t\" LIMIT 1;"],
         { stDict with columns := some ["a"] }, .error .conditionsNotDict)
    ∧ localValidation .conditionsNotDict = true :=
  ⟨rfl, rfl⟩

/-- C3 counterexample: a structured-composition statement whose first
keyword is `UPDATE` passes the gate, is executed, and succeeds — no
`QueryConstraintError` is raised for composition objects. -/
theorem C3_counterexample_composed_update_executes :
    query (.composed "UPDATE t SET x=1") true sessRow stList
      = ([.exec "UPDATE t SET x=1"],
         { stList with result := some (.rows [[.int 1, .int 2]]) },
         .ok (some (.rows [[.int 1, .int 2]]))) := rfl

/-- C6 counterexample: aggregate non-empty and group-by absent, but with an
ill-typed `table_name` the call fails with the table-name type error, not
the aggregate/group-by `ConstraintError` — so the claim does not hold for
arbitrary values of the other fields. -/
theorem C6_counterexample_other_field_error_wins :
    read { schema := "s", table_name := .other, columns := .list ["a"],
           aggregate := .dict [("a", "SUM")], conditions := .none,
           conjuction := .str "AND", order_by := .none, group_by := .none,
           limit := .none, return_type := .none } sessX stDict
      = ([], { stDict with columns := some ["a"] }, .error .tableNameNotString)
    ∧ DBError.tableNameNotString ≠ DBError.groupByRequired :=
  ⟨rfl, by decide⟩

/-- C7 counterexample: `limit = -5` is not positive, yet the assembled
statement carries a `LIMIT -5` clause (`if limit:` is true for any non-zero
integer). -/
theorem C7_counterexample_negative_limit_emitted :
    (read { schema := "s", table_name := .str "t", columns := .list ["a"],
            aggregate := .none, conditions := .none, conjuction := .str "AND",
            order_by := .none, group_by := .none, limit := .int (-5),
            return_type := .none } sessRow stList).1
      = [.exec "SELECT \"a\" FROM \"s\".\"t\" LIMIT -5"]
    ∧ ¬ (0 < (-5 : Int)) :=
  ⟨rfl, by decide⟩

/-! ### Helper lemmas -/

theorem execFetch_events (s : String) (fetch : Bool) (sess : Session) (st : DBState) :
    (execFetch s fetch sess st).1 = [Event.exec s] := by
  unfold execFetch
  split
  · dsimp only
    split <;> rfl
  · rfl

theorem query_composed_events (s : String) (fetch : Bool) (sess : Session) (st : DBState) :
    (query (.composed s) fetch sess st).1 = [Event.exec s] :=
  execFetch_events s fetch sess st

theorem format_result_error (st : DBState) (raw : List (List PyLit)) (e : DBError)
    (h : format_result st raw = .error e) : e = .noneNotIterable := by
  unfold format_result at h
  split at h <;> try split at h <;> try split at h
  all_goals simp_all

theorem execFetch_error (s : String) (fetch : Bool) (sess : Session) (st : DBState)
    (e : DBError) (h : (execFetch s fetch sess st).2.2 = .error e) :
    e = .noneNotIterable := by
  unfold execFetch at h
  split at h
  · dsimp only at h
    split at h
    · simp_all
    · next e2 heq =>
      simp only at h
      cases h
      exact format_result_error _ _ _ heq
  · simp_all

theorem query_composed_error (s : String) (fetch : Bool) (sess : Session) (st : DBState)
    (e : DBError) (h : (query (.composed s) fetch sess st).2.2 = .error e) :
    e = .noneNotIterable :=
  execFetch_error s fetch sess st e h

theorem execFetch_state_aggregate (s : String) (fetch : Bool) (sess : Session)
    (st : DBState) : ((execFetch s fetch sess st).2.1).aggregate = st.aggregate := by
  unfold execFetch
  split
  · dsimp only
    split <;> rfl
  · rfl

theorem query_state_aggregate (q : QueryArg) (fetch : Bool) (sess : Session)
    (st : DBState) : ((query q fetch sess st).2.1).aggregate = st.aggregate := by
  unfold query
  split
  · split
    · rfl
    · split
      · rfl
      · split
        · exact execFetch_state_aggregate _ _ _ _
        · rfl
  · exact execFetch_state_aggregate _ _ _ _
  · split <;> rfl

theorem selectClause_error (f : Fields) (st : DBState) (e : DBError)
    (h : selectClause f st = .error e) : e = .noneNotIterable := by
  unfold selectClause at h
  split at h <;> split at h <;> simp_all

theorem assemble_error (f : Fields) (st : DBState) (e : DBError)
    (h : assemble f st = .error e) : e = .noneNotIterable := by
  unfold assemble at h
  split at h
  · next e2 heq =>
    cases h
    exact selectClause_error _ _ _ heq
  · simp_all

theorem probePhase_error (a : ReadArgs) (sess : Session) (st : DBState) (e : DBError)
    (h : probePhase a sess st = .error e) : e = .identifierNotStr := by
  unfold probePhase at h
  split at h
  · split at h <;> simp_all [get_column_names]
  · split at h <;> simp_all

theorem probePhase_ok_events (a : ReadArgs) (sess : Session) (st : DBState)
    (evs : List Event) (st1 : DBState) (h : probePhase a sess st = .ok (evs, st1)) :
    evs = [] ∨ ∃ p, evs = [Event.probe p] := by
  unfold probePhase at h
  split at h
  · split at h
    · dsimp only [get_column_names] at h
      injection h with h
      injection h with h1 h2
      exact Or.inr ⟨_, h1.symm⟩
    · simp at h
  · split at h <;>
      (injection h with h; injection h with h1 h2; exact Or.inl h1.symm)

theorem probePhase_ok_aggregate (a : ReadArgs) (sess : Session) (st : DBState)
    (evs : List Event) (st1 : DBState) (h : probePhase a sess st = .ok (evs, st1)) :
    st1.aggregate = st.aggregate := by
  unfold probePhase at h
  split at h
  · split at h
    · dsimp only [get_column_names] at h
      injection h with h
      injection h with h1 h2
      subst h2
      rfl
    · simp at h
  · split at h <;>
      (injection h with h; injection h with h1 h2; subst h2; rfl)

theorem fieldChecks_ok_aggregate (a : ReadArgs) (f : Fields)
    (h : fieldChecks a = .ok f) :
    f.aggregate = (match a.aggregate with | .dict m => some m | _ => Option.none) := by
  unfold fieldChecks at h
  repeat' split at h
  all_goals (try (injection h with h; subst h))
  all_goals simp_all

theorem fieldChecks_error_ne (a : ReadArgs) (e : DBError) (h : fieldChecks a = .error e) :
    e ≠ .columnsNotList ∧ e ≠ .identifierNotStr ∧ e ≠ .groupByRequired
    ∧ e ≠ .noneNotIterable := by
  unfold fieldChecks at h
  repeat' split at h
  all_goals (try (injection h with h; subst h))
  all_goals simp_all

theorem readChecks_events (a : ReadArgs) (sess : Session) (st : DBState) :
    (readChecks a sess st).1 = [] ∨ ∃ p, (readChecks a sess st).1 = [Event.probe p] := by
  unfold readChecks
  split
  · exact Or.inl rfl
  · split
    · exact Or.inl rfl
    · next evs st1 heq =>
      have hev := probePhase_ok_events a sess st evs st1 heq
      split
      · simpa using hev
      · split
        · dsimp only
          split <;> simpa using hev
        · simpa using hev

theorem readChecks_state_aggregate (a : ReadArgs) (sess : Session) (st : DBState)
    (hf : aggTruthy a.aggregate = false) :
    ((readChecks a sess st).2.1).aggregate = st.aggregate := by
  unfold readChecks
  split
  · rfl
  · split
    · rfl
    · next evs st1 heq =>
      have h1 := probePhase_ok_aggregate a sess st evs st1 heq
      split
      · simpa using h1
      · next f heqf =>
        have hagg := fieldChecks_ok_aggregate a f heqf
        split
        · next p ps heqa =>
          exfalso
          rw [hagg] at heqa
          cases ha : a.aggregate <;> rw [ha] at heqa <;> simp_all [aggTruthy]
        · simpa using h1

theorem readChecks_aggregate_or (a : ReadArgs) (sess : Session) (st : DBState) :
    ((readChecks a sess st).2.1).aggregate = st.aggregate
    ∨ ∃ p ps, ((readChecks a sess st).2.1).aggregate = some (p :: ps) := by
  unfold readChecks
  split
  · exact Or.inl rfl
  · split
    · exact Or.inl rfl
    · next evs st1 heq =>
      have h1 := probePhase_ok_aggregate a sess st evs st1 heq
      split
      · exact Or.inl (by simpa using h1)
      · next f heqf =>
        split
        · next p ps heqa =>
          dsimp only
          split
          · exact Or.inr ⟨p, ps, rfl⟩
          · exact Or.inr ⟨p, ps, rfl⟩
        · exact Or.inl (by simpa using h1)

theorem readChecks_columns_event (a : ReadArgs) (sess : Session) (st : DBState) :
    (readChecks a sess st).2.2 = .error .columnsNotList →
    (readChecks a sess st).1 = [] := by
  unfold readChecks
  split
  · intro _; rfl
  · split
    · next e heq =>
      intro h
      have he := probePhase_error a sess st e heq
      simp only at h
      injection h with h
      simp_all
    · next evs st1 heq =>
      split
      · next e heqf =>
        intro h
        have hne := (fieldChecks_error_ne a e heqf).1
        simp only at h
        injection h with h
        exact absurd h hne
      · next f heqf =>
        split
        · dsimp only
          split
          · intro h
            simp only at h
            injection h with h
            exact absurd h (by simp)
          · intro h
            simp at h
        · intro h
          simp at h

/-- C2 (amended): only the `columns` shape check runs before the probe — a
`columns` type error means no statement at all was sent; every other local
validation error can follow the probe, but always precedes the main
statement: when `read` fails with a local-validation error, no `exec` event
is in its trace. -/
theorem C2_amended_validation_vs_statements (a : ReadArgs) (sess : Session)
    (st : DBState) :
    ((read a sess st).2.2 = .error .columnsNotList → (read a sess st).1 = [])
    ∧ (∀ e, (read a sess st).2.2 = .error e → localValidation e = true →
        ∀ s, Event.exec s ∉ (read a sess st).1) := by
  have hev := readChecks_events a sess st
  have hcol := readChecks_columns_event a sess st
  unfold read
  split
  · next evs st1 e heq =>
    rw [heq] at hev hcol
    simp only at hev hcol ⊢
    refine ⟨?_, ?_⟩
    · intro h
      injection h with h
      subst h
      exact hcol rfl
    intro e2 he2 hloc s hs
    rcases hev with rfl | ⟨p, rfl⟩
    · simp at hs
    · simp at hs
  · next evs st1 f heq =>
    split
    · next e2 heqa =>
      have he2 := assemble_error _ _ _ heqa
      subst he2
      constructor
      · intro h
        simp only at h
        injection h with h
        exact absurd h (by simp)
      · intro e3 he3 hloc s hs
        simp only at he3
        injection he3 with he3
        subst he3
        simp [localValidation] at hloc
    · next qs heqa =>
      split
      · next ev2 st2 e3 heqq =>
        have he3 : (query (.composed qs) true sess st1).2.2 = .error e3 := by
          rw [heqq]
        have h4 := query_composed_error _ _ _ _ _ he3
        subst h4
        constructor
        · intro h
          simp only at h
          injection h with h
          exact absurd h (by simp)
        · intro e4 he4 hloc s hs
          simp only at he4
          injection he4 with he4
          subst he4
          simp [localValidation] at hloc
      · next ev2 st2 r heqq =>
        constructor
        · intro h
          simp at h
        · intro e4 he4 hloc s hs
          simp at he4

/-- C2 witness: at a call whose `columns` argument is ill-typed, the
outcome is the columns validation error and, by the amended theorem, no
statement at all was sent. -/
theorem C2_witness :
    (read argsColsBad sessX stDict).2.2 = .error .columnsNotList
    ∧ (read argsColsBad sessX stDict).1 = [] :=
  ⟨rfl, (C2_amended_validation_vs_statements argsColsBad sessX stDict).1 rfl⟩

/-- C3 (amended): the first-keyword guard applies exactly to plain string
statements — a string whose first token does not upper-case to SELECT fails
with the only-SELECT error and nothing is executed, while a
structured-composition object is always executed without any keyword
check. -/
theorem C3_amended_guard_strings_only (s t : String) (ts : List String)
    (fetch : Bool) (sess : Session) (st : DBState)
    (hsplit : pySplit (pyStrip s) = t :: ts) (hkw : pyUpper t ≠ "SELECT") :
    query (.pyStr s) fetch sess st = ([], st, .error .onlySelect)
    ∧ ∀ c, (query (.composed c) fetch sess st).1 = [Event.exec c] := by
  constructor
  · have hne : s ≠ "" := by
      intro h
      subst h
      have h0 : pySplit (pyStrip "") = [] := rfl
      rw [h0] at hsplit
      exact List.cons_ne_nil t ts hsplit.symm
    simp only [query]
    rw [if_neg hne, hsplit]
    simp only
    rw [if_neg hkw]
  · intro c
    exact query_composed_events c fetch sess st

/-- C3 witness: the plain-string `UPDATE` statement is rejected by the
guard with the only-SELECT error. -/
theorem C3_witness :
    query (.pyStr "UPDATE t SET x=1") true sessRow stList
      = ([], stList, .error .onlySelect) :=
  (C3_amended_guard_strings_only "UPDATE t SET x=1" "UPDATE" ["t", "SET", "x=1"]
    true sessRow stList (by decide) (by decide)).1

/-- C4: the Clause Assembler emits the statement as the concatenation
SELECT, FROM, WHERE, GROUP BY, ORDER BY, LIMIT, each optional clause
rendering empty when its field is empty/absent; and the §8 scenario read
executes exactly the expected statement (identifiers are emitted quoted by
`sql.Identifier`, which is SQL-equivalent to the spec's bare text). -/
theorem C4_clause_order_and_scenario :
    (∀ f st sel, selectClause f st = Except.ok sel →
        assemble f st = .ok (sel ++ fromClause f.schema f.table
          ++ whereClause f.conditions f.conjuction ++ groupClause f.group_by
          ++ orderClause f.order_by ++ limitClause f.limit))
    ∧ (∀ conj, whereClause Option.none conj = "" ∧ whereClause (some []) conj = "")
    ∧ groupClause Option.none = "" ∧ groupClause (some []) = ""
    ∧ (∀ o, orderTruthy o = false → orderClause o = "")
    ∧ limitClause Option.none = ""
    ∧ (read scenArgs sessFilm stDict).1
        = [.exec ("SELECT \"category\", SUM(\"price\")"
            ++ " FROM \"public\".\"film_list\""
            ++ " WHERE \"length\" > 60"
            ++ " GROUP BY \"category\", \"price\""
            ++ " ORDER BY \"price\" DESC"
            ++ " LIMIT 10")] := by
  refine ⟨?_, fun conj => ⟨rfl, rfl⟩, rfl, rfl, ?_, rfl, by decide⟩
  · intro f st sel h
    unfold assemble
    rw [h]
  · intro o ho
    simp [orderClause, ho]

/-- C4 witness: the decomposition applied to the scenario's fields. -/
theorem C4_witness :
    selectClause scenFields stDict = .ok "SELECT \"category\", SUM(\"price\")"
    ∧ assemble scenFields stDict
        = .ok ("SELECT \"category\", SUM(\"price\")"
            ++ fromClause scenFields.schema scenFields.table
            ++ whereClause scenFields.conditions scenFields.conjuction
            ++ groupClause scenFields.group_by
            ++ orderClause scenFields.order_by
            ++ limitClause scenFields.limit) :=
  ⟨by decide,
   C4_clause_order_and_scenario.1 scenFields stDict
     "SELECT \"category\", SUM(\"price\")" (by decide)⟩

/-- C6 (amended): for every call whose fields all pass the shape checks,
a non-empty aggregate map together with an empty/absent group-by always
fails with the aggregate/group-by ConstraintError. -/
theorem C6_amended_constraint_error (schema tbl conj : String)
    (cols : Option (List String)) (conds : Option (List (String × PyLit × String)))
    (o : OrderShape) (g : Option (List String)) (lim : Option Int)
    (rt : Option RType) (p : String × String) (ps : List (String × String))
    (sess : Session) (st : DBState) (hg : g = Option.none ∨ g = some []) :
    (read (mkArgs schema tbl conj cols (some (p :: ps)) conds o g lim rt)
        sess st).2.2 = .error .groupByRequired := by
  rcases hg with rfl | rfl <;>
    rcases cols with _ | ⟨_ | ⟨c, cs⟩⟩ <;>
    rcases conds with _ | cs2 <;>
    rcases o with _ | c1 | ⟨c1, d1⟩ | m1 <;>
    rcases lim with _ | n <;>
    rcases rt with _ | t <;>
    simp [read, readChecks, probePhase, fieldChecks, mkArgs, mkCols, mkConds,
      mkGroupArg, mkLimitArg, mkRT, mkOrder, columnsFalsy, groupFalsy,
      get_column_names]

/-- C6 witness: a concrete well-shaped call with aggregate and no group-by
fails with the ConstraintError. -/
theorem C6_witness :
    (read (mkArgs "public" "film_list" "AND" (some ["price"])
        (some [("price", "SUM")]) Option.none .none Option.none Option.none
        Option.none) sessFilm stDict).2.2 = .error .groupByRequired :=
  C6_amended_constraint_error "public" "film_list" "AND" (some ["price"])
    Option.none .none Option.none Option.none Option.none ("price", "SUM") []
    sessFilm stDict (Or.inl rfl)

/-- C7 (amended): the LIMIT clause is emitted iff the limit is a non-zero
integer — absent or zero yields no clause, while any non-zero `n` (negative
included) yields `LIMIT n` as a bound literal. -/
theorem C7_amended_limit_iff_nonzero :
    limitClause Option.none = "" ∧ limitClause (some 0) = ""
    ∧ ∀ n : Int, n ≠ 0 → limitClause (some n) = " LIMIT " ++ renderLit (.int n) := by
  refine ⟨rfl, rfl, ?_⟩
  intro n hn
  simp [limitClause, hn]

/-- C7 witness: a positive limit renders its clause. -/
theorem C7_witness :
    limitClause (some 10) = " LIMIT " ++ renderLit (.int 10) :=
  C7_amended_limit_iff_nonzero.2.2 10 (by decide)

/-- C9: `self.aggregate` is assigned only by a read that passes a truthy
aggregate, is never cleared, and consequently a later aggregate-free read
on the same instance with the frame return shape still relabels headers
with the stale aggregate map (`"sum: price"` instead of `"price"`). -/
theorem C9_stale_aggregate_relabels :
    (∀ a sess st, aggTruthy a.aggregate = false →
        ((read a sess st).2.1).aggregate = st.aggregate)
    ∧ (∀ a sess st m, st.aggregate = some m →
        ∃ m', ((read a sess st).2.1).aggregate = some m')
    ∧ (read argsPlainFilm sessFilm (read argsAggFilm sessFilm stFrame).2.1).2.2
        = .ok (some (.frame ["category", "sum: price"]
            [[.str "Action", .int 7]])) := by
  refine ⟨?_, ?_, by decide⟩
  · intro a sess st hf
    have h1 := readChecks_state_aggregate a sess st hf
    unfold read
    split
    · next evs st1 e heq =>
      rw [heq] at h1
      simpa using h1
    · next evs st1 f heq =>
      rw [heq] at h1
      simp only at h1
      split
      · simpa using h1
      · next qs heqa =>
        split
        · next ev2 st2 e3 heqq =>
          have hq := query_state_aggregate (.composed qs) true sess st1
          rw [heqq] at hq
          simpa [h1] using hq
        · next ev2 st2 r heqq =>
          have hq := query_state_aggregate (.composed qs) true sess st1
          rw [heqq] at hq
          simpa [h1] using hq
  · intro a sess st m hm
    have h1 := readChecks_aggregate_or a sess st
    unfold read
    split
    · next evs st1 e heq =>
      rw [heq] at h1
      simp only at h1
      rcases h1 with h1 | ⟨p, ps, h1⟩
      · exact ⟨m, by rw [h1, hm]⟩
      · exact ⟨p :: ps, h1⟩
    · next evs st1 f heq =>
      rw [heq] at h1
      simp only at h1
      split
      · rcases h1 with h1 | ⟨p, ps, h1⟩
        · exact ⟨m, by rw [h1, hm]⟩
        · exact ⟨p :: ps, h1⟩
      · next qs heqa =>
        split
        · next ev2 st2 e3 heqq =>
          have hq := query_state_aggregate (.composed qs) true sess st1
          rw [heqq] at hq
          simp only at hq
          rcases h1 with h1 | ⟨p, ps, h1⟩
          · exact ⟨m, by rw [hq, h1, hm]⟩
          · exact ⟨p :: ps, by rw [hq, h1]⟩
        · next ev2 st2 r heqq =>
          have hq := query_state_aggregate (.composed qs) true sess st1
          rw [heqq] at hq
          simp only at hq
          rcases h1 with h1 | ⟨p, ps, h1⟩
          · exact ⟨m, by rw [hq, h1, hm]⟩
          · exact ⟨p :: ps, by rw [hq, h1]⟩

/-- C9 witness: an aggregate-free read leaves the stored aggregate map of
the instance untouched. -/
theorem C9_witness :
    aggTruthy argsPlainFilm.aggregate = false
    ∧ ((read argsPlainFilm sessFilm stFrame).2.1).aggregate
        = stFrame.aggregate :=
  ⟨rfl, C9_stale_aggregate_relabels.1 argsPlainFilm sessFilm stFrame rfl⟩

/-- C10: a non-empty all-whitespace statement trips neither the empty-query
check nor the SELECT guard: `"".split()[0]` raises an IndexError before any
execution. -/
theorem C10_whitespace_only_index_error (s : String) (fetch : Bool)
    (sess : Session) (st : DBState) (hne : s ≠ "")
    (hsp : ∀ c ∈ s.data, pyIsSpace c = true) :
    query (.pyStr s) fetch sess st = ([], st, .error .indexError) := by
  have hstrip : pyStrip s = "" := by
    unfold pyStrip
    have h1 : s.data.dropWhile pyIsSpace = [] :=
      List.dropWhile_eq_nil_iff.mpr (fun x hx => hsp x hx)
    rw [h1]
    rfl
  simp only [query]
  rw [if_neg hne, hstrip]
  rfl

/-- C10 witness: the single-space statement. -/
theorem C10_witness :
    (" " : String) ≠ ""
    ∧ query (.pyStr " ") true sessX stDict = ([], stDict, .error .indexError) :=
  ⟨by decide,
   C10_whitespace_only_index_error " " true sessX stDict (by decide) (by decide)⟩

end DB
